import Mathlib

/-!
Verification of gmail-mcp-manager: a shallow embedding of the OAuth2
authentication flow (src/auth.service.ts), the Context7 documentation
cache (Context7Service), and the environment-based factories
(AuthService.fromEnvironment, createFromEnvironment in src/index.ts),
with theorems settling the specification claims about them.

Conventions of the embedding:
* JavaScript string/number truthiness is made explicit (`jsTruthyStr`,
  the `e ≠ 0` guards on numeric expiries).
* `process.env` and `credentials` fields that may be absent are `Option`.
* Timestamps (`Date.now()`, `expiry_date`) are `Int` milliseconds.
* A JavaScript `Map` is an association list with insert-or-replace `mset`,
  `mget` and `mdel`, preserving insertion order like the real `Map`.
* Code that can throw is modelled with `Except`; external calls whose
  outcome the code branches on (token introspection, token refresh,
  code-for-token exchange, the Context7 fetch) are oracle parameters.
All definitions are structural so they evaluate inside the kernel.
-/

namespace GmailMCP

/-- JavaScript truthiness of a possibly-absent string: `undefined` and the
empty string are falsy, every other string is truthy. -/
def jsTruthyStr : Option String → Bool
  | none => false
  | some s => !(s == "")

/-- JavaScript `x || d` for a possibly-absent string `x`: falsy (`undefined`
or empty) falls through to the default `d`. -/
def jsOrStr : Option String → String → String
  | none, d => d
  | some s, d => if s == "" then d else s

/-- Split a character list at every occurrence of `c`, like JavaScript
`String.prototype.split` with a single-character separator. -/
def splitOnChar (c : Char) : List Char → List (List Char)
  | [] => [[]]
  | x :: xs =>
    match splitOnChar c xs with
    | [] => [[x]]
    | y :: ys => if x == c then [] :: y :: ys else (x :: y) :: ys

/-- Everything after the first occurrence of `c`, or `none` when `c` does
not occur (the query-string part of a URL for `c = ?`). -/
def afterFirstChar (c : Char) : List Char → Option (List Char)
  | [] => none
  | x :: xs => if x == c then some xs else afterFirstChar c xs

/-- Split at the first occurrence of `c`: the part before it, and the part
after it when `c` occurs (how `URLSearchParams` splits `key=value`). -/
def splitFirstAt (c : Char) : List Char → List Char × Option (List Char)
  | [] => ([], none)
  | x :: xs =>
    if x == c then ([], some xs)
    else
      let r := splitFirstAt c xs
      (x :: r.1, r.2)

/-- Substring test on character lists, mirroring
`String.prototype.indexOf(pat) > -1`. -/
def listContainsSub (pat : List Char) : List Char → Bool
  | [] => pat.isPrefixOf []
  | x :: xs => pat.isPrefixOf (x :: xs) || listContainsSub pat xs

/-- `s.indexOf(pat) > -1` on strings. -/
def strContainsSub (s pat : String) : Bool := listContainsSub pat.toList s.toList

/-- First value bound to `name` in the query string of `url`, mirroring
`new URL(url, base).searchParams.get(name)`: `none` when the URL has no
query string or the name is absent; a key without `=` yields the empty
string. (Percent-decoding and fragment stripping are not modelled; no
input considered here uses them.) -/
def getQueryParam (url name : String) : Option String :=
  match afterFirstChar '?' url.toList with
  | none => none
  | some qs =>
    let pairs := (splitOnChar '&' qs).map (splitFirstAt '=')
    match pairs.find? (fun pr => pr.1 == name.toList) with
    | none => none
    | some pr => some (pr.2.getD []).asString

/-! ### JavaScript `Map` as an association list -/

/-- `Map.prototype.get`. -/
def mget {α : Type} (m : List (String × α)) (k : String) : Option α :=
  match m.find? (fun p => p.1 == k) with
  | some p => some p.2
  | none => none

/-- `Map.prototype.set`: replace in place when the key is present,
append otherwise. -/
def mset {α : Type} (m : List (String × α)) (k : String) (v : α) :
    List (String × α) :=
  if (m.find? (fun p => p.1 == k)).isSome then
    m.map (fun p => if p.1 == k then (k, v) else p)
  else
    m ++ [(k, v)]

/-- `Map.prototype.delete`. -/
def mdel {α : Type} (m : List (String × α)) (k : String) : List (String × α) :=
  m.filter (fun p => !(p.1 == k))

/-! ### Context7Service: the documentation cache (src/types.ts part 2) -/

/-- The `Context7Response` interface. -/
structure Context7Response where
  documentation : String
  examples : List String
  relevantLinks : List String
deriving DecidableEq

/-- `CACHE_DURATION = 30 * 60 * 1000` milliseconds. -/
def CACHE_DURATION : Int := 30 * 60 * 1000

/-- The mutable fields of `Context7Service`: the `enabled` flag and the two
parallel maps `cache` and `cacheExpiry`. -/
structure Context7State where
  enabled : Bool
  cache : List (String × Context7Response)
  cacheExpiry : List (String × Int)
deriving DecidableEq

/-- The `Context7Service` constructor with its `enabled` argument. -/
def context7Init (enabled : Bool) : Context7State :=
  { enabled := enabled, cache := [], cacheExpiry := [] }

/-- `Context7Service.setEnabled`. -/
def setEnabled (s : Context7State) (enabled : Bool) : Context7State :=
  { s with enabled := enabled }

/-- The cache key `${operation}-${context || 'default'}` built by
`getRelevantDocumentation`. -/
def cacheKey (operation : String) (context : Option String) : String :=
  operation ++ "-" ++ jsOrStr context "default"

/-- `Context7Service.getCachedResponse`: returns the live entry when both
maps hold the key, the stored expiry is truthy (nonzero) and `now` is
strictly before it; otherwise lazily evicts whatever is stored under the
key and returns `none`. Returns the possibly-evicted state alongside. -/
def getCachedResponse (s : Context7State) (key : String) (now : Int) :
    Option Context7Response × Context7State :=
  match mget s.cache key, mget s.cacheExpiry key with
  | some c, some e =>
    if e ≠ 0 ∧ now < e then (some c, s)
    else (none, { s with cache := mdel s.cache key,
                         cacheExpiry := mdel s.cacheExpiry key })
  | some _, none =>
    (none, { s with cache := mdel s.cache key,
                    cacheExpiry := mdel s.cacheExpiry key })
  | none, _ => (none, s)

/-- `Context7Service.setCachedResponse`: store the value and stamp its
expiry `now + CACHE_DURATION`. -/
def setCachedResponse (s : Context7State) (key : String)
    (response : Context7Response) (now : Int) : Context7State :=
  { s with cache := mset s.cache key response,
           cacheExpiry := mset s.cacheExpiry key (now + CACHE_DURATION) }

/-- Outcome of one `getRelevantDocumentation` call: the returned value, the
service state afterwards, and whether the underlying fetch
(`fetchFromContext7`) was invoked. -/
structure DocCallResult where
  result : Option Context7Response
  state : Context7State
  fetchInvoked : Bool
deriving DecidableEq

/-- `Context7Service.getRelevantDocumentation(operation, context)` at time
`now`. The awaited outcome of `fetchFromContext7(searchTerm)` is the
oracle `fetch`; a thrown error is caught by the surrounding `try` and
converted to a `null` result (nothing is cached on failure, but an evicted
stale entry stays evicted, as in the source where `getCachedResponse` has
already mutated the maps). -/
def getRelevantDocumentation (s : Context7State) (operation : String)
    (context : Option String) (now : Int)
    (fetch : Except String Context7Response) : DocCallResult :=
  if !s.enabled then
    { result := none, state := s, fetchInvoked := false }
  else
    match (getCachedResponse s (cacheKey operation context) now).1 with
    | some cached =>
      { result := some cached,
        state := (getCachedResponse s (cacheKey operation context) now).2,
        fetchInvoked := false }
    | none =>
      match fetch with
      | .ok doc =>
        { result := some doc,
          state := setCachedResponse
            (getCachedResponse s (cacheKey operation context) now).2
            (cacheKey operation context) doc now,
          fetchInvoked := true }
      | .error _ =>
        { result := none,
          state := (getCachedResponse s (cacheKey operation context) now).2,
          fetchInvoked := true }

/-! ### AuthService.performOAuth2Flow (src/auth.service.ts lines 79-146)

The flow is a `Promise` shared by an HTTP request handler and a 5-minute
`setTimeout`. We model its observable state and replay the events of one
invocation: the HTTP requests delivered to the listener, followed by the
watchdog timer (whose `setTimeout` is never cleared in the source, so it
fires in every run). `settle` captures promise semantics: only the first
`resolve`/`reject` takes effect. `closeTransitions` observes how many
times the listener actually goes from listening to closed (the port being
released); `destroyCalls` counts raw `server.destroy()` invocations, which
are idempotent on an already-destroyed server. -/

/-- How the flow's promise was settled. -/
inductive FlowResult
  /-- `resolve(this.oAuth2Client)` after a successful code exchange. -/
  | resolved
  /-- `reject(...)` carrying the error message. -/
  | rejected (msg : String)
deriving DecidableEq

/-- Observable state of one `performOAuth2Flow` invocation. -/
structure FlowState where
  serverClosed : Bool
  destroyCalls : Nat
  closeTransitions : Nat
  settled : Option FlowResult
  timerCancelled : Bool
  timerFired : Bool
deriving DecidableEq

/-- State right after `server.listen(3000)` and `setTimeout(...)`. -/
def initFlowState : FlowState :=
  { serverClosed := false, destroyCalls := 0, closeTransitions := 0,
    settled := none, timerCancelled := false, timerFired := false }

/-- `server.destroy()` (via the server-destroy package): closes the server.
The port is released only on the first call; later calls find the server
already closed. -/
def destroyServer (s : FlowState) : FlowState :=
  { s with serverClosed := true, destroyCalls := s.destroyCalls + 1,
           closeTransitions := s.closeTransitions + (if s.serverClosed then 0 else 1) }

/-- Settling the promise: `resolve`/`reject` on an already-settled promise
is a no-op. -/
def settle (s : FlowState) (r : FlowResult) : FlowState :=
  match s.settled with
  | some _ => s
  | none => { s with settled := some r }

/-- The message of the timeout rejection. -/
def timeoutMsg : String := "Authentication timeout - please try again"

/-- The HTTP request handler of the callback listener, for a request whose
`req.url` is `url`. `exchange` is the awaited outcome of
`this.oAuth2Client.getToken(code)`. Mirrors the source exactly: a URL not
containing `/oauth2callback` is ignored; a truthy `error` query parameter
rejects with `OAuth2 error: ...`; a falsy `code` rejects with
`No authorization code received`; otherwise the server is destroyed first
and the code exchanged — on exchange failure the `catch` destroys the
(already destroyed) server again and rejects with the raw error. -/
def handleRequest (exchange : String → Except String Unit)
    (s : FlowState) (url : String) : FlowState :=
  if strContainsSub url "/oauth2callback" then
    if jsTruthyStr (getQueryParam url "error") then
      settle (destroyServer s)
        (.rejected ("OAuth2 error: " ++ (getQueryParam url "error").getD ""))
    else if !jsTruthyStr (getQueryParam url "code") then
      settle (destroyServer s) (.rejected "No authorization code received")
    else
      match exchange ((getQueryParam url "code").getD "") with
      | .ok _ => settle (destroyServer s) .resolved
      | .error m => settle (destroyServer (destroyServer s)) (.rejected m)
  else s

/-- The 5-minute watchdog firing: destroys the server and rejects with the
timeout error. The guard models `clearTimeout`; the source never calls it,
and nothing in the model ever sets `timerCancelled`. -/
def handleTimeout (s : FlowState) : FlowState :=
  if s.timerCancelled then s
  else settle (destroyServer { s with timerFired := true }) (.rejected timeoutMsg)

/-- One complete invocation of `performOAuth2Flow`: the requests delivered
to the listener in order, then the watchdog (never cancelled in the
source, so it always fires). -/
def runFlow (exchange : String → Except String Unit) (reqs : List String) :
    FlowState :=
  handleTimeout (reqs.foldl (handleRequest exchange) initFlowState)

/-! ### AuthService token validity, refresh and client access -/

/-- `5 * 60 * 1000` milliseconds, the refresh threshold in `isTokenValid`. -/
def FIVE_MINUTES_MS : Int := 5 * 60 * 1000

/-- The guard `expiryDate && expiryDate - Date.now() < 5 * 60 * 1000` of
`AuthService.isTokenValid` (strict `<`; an absent or zero — falsy —
`expiry_date` never triggers a refresh). -/
def refreshNeeded (expiry_date : Option Int) (now : Int) : Bool :=
  match expiry_date with
  | none => false
  | some e => decide (e ≠ 0) && decide (e - now < FIVE_MINUTES_MS)

/-- Outcome of `AuthService.isTokenValid`: how many times `refreshToken`
was invoked, and the returned boolean. -/
structure ValidityCheck where
  refreshCount : Nat
  valid : Bool
deriving DecidableEq

/-- `AuthService.isTokenValid` at time `now`. `tokenInfoOk` is whether the
awaited `getTokenInfo` call succeeds (a throw is caught and yields
`false` with no refresh attempted, since the call precedes the expiry
check); `refreshOk` is whether `refreshToken` succeeds (its throw is
caught and yields `false`, after the single refresh attempt). -/
def isTokenValid (tokenInfoOk refreshOk : Bool) (expiry_date : Option Int)
    (now : Int) : ValidityCheck :=
  if !tokenInfoOk then { refreshCount := 0, valid := false }
  else if refreshNeeded expiry_date now then
    { refreshCount := 1, valid := refreshOk }
  else { refreshCount := 0, valid := true }

/-- Number of `refreshToken` invocations performed by one
`AuthService.authenticate()` call: when stored tokens load, the single
`isTokenValid` call decides it; the interactive flow taken otherwise
never calls `refreshToken`. -/
def authenticateRefreshCount (hasStoredTokens tokenInfoOk refreshOk : Bool)
    (expiry_date : Option Int) (now : Int) : Nat :=
  if hasStoredTokens then
    (isTokenValid tokenInfoOk refreshOk expiry_date now).refreshCount
  else 0

/-- Error taxonomy of the factories: `AuthenticationError` (types.ts) vs a
plain `new Error(...)` (index.ts line 315). -/
inductive ThrownError
  | authenticationError (message : String)
  | genericError (message : String)
deriving DecidableEq

/-- Whether an outcome is a thrown `AuthenticationError`. -/
def isAuthenticationError {α : Type} : Except ThrownError α → Bool
  | .error (.authenticationError _) => true
  | _ => false

/-- Whether an outcome is a thrown error at all. -/
def isThrown {α : Type} : Except ThrownError α → Bool
  | .error _ => true
  | _ => false

/-- The in-memory `oAuth2Client.credentials` as far as
`getAuthenticatedClient` inspects them. -/
structure Credentials where
  access_token : Option String
deriving DecidableEq

/-- `AuthService.getAuthenticatedClient`: throws `AuthenticationError` when
`credentials.access_token` is falsy (absent or empty), otherwise returns
the client handle. -/
def getAuthenticatedClient (c : Credentials) : Except ThrownError Unit :=
  if !jsTruthyStr c.access_token then
    .error (.authenticationError
      "No valid authentication. Please run authenticate() first.")
  else .ok ()

/-! ### Environment-based factories -/

/-- The environment variables read by the factories. -/
structure Env where
  GOOGLE_CLIENT_ID : Option String
  GOOGLE_CLIENT_SECRET : Option String
  GOOGLE_REDIRECT_URI : Option String
  GOOGLE_SCOPES : Option String
  TOKEN_STORAGE_PATH : Option String
  DEFAULT_USER_ID : Option String
  CONTEXT7_ENABLED : Option String
deriving DecidableEq

/-- The `OAuth2Config` interface. -/
structure OAuth2Config where
  clientId : String
  clientSecret : String
  redirectUri : String
  scopes : List String
deriving DecidableEq

/-- The `GmailMCPConfig` interface. -/
structure GmailMCPConfig where
  oauth2 : OAuth2Config
  tokenStoragePath : Option String
  defaultUserId : String
  context7Enabled : Bool
deriving DecidableEq

/-- `String.prototype.split(',')`. -/
def splitCommas (s : String) : List String :=
  (splitOnChar ',' s.toList).map List.asString

/-- The `oauth2` part built identically by both factories. -/
def oauth2FromEnv (env : Env) : OAuth2Config :=
  { clientId := jsOrStr env.GOOGLE_CLIENT_ID ""
    clientSecret := jsOrStr env.GOOGLE_CLIENT_SECRET ""
    redirectUri := jsOrStr env.GOOGLE_REDIRECT_URI "http://localhost:3000/oauth2callback"
    scopes := splitCommas
      (jsOrStr env.GOOGLE_SCOPES "https://www.googleapis.com/auth/gmail.modify") }

deriving instance DecidableEq for Except

/-- Result of running a factory: what it returned or threw, and how many
network requests and browser launches it performed. Both factories only
validate the configuration and construct objects (the `AuthService` /
`GmailMCPManager` constructors assign fields and build an `OAuth2Client`
locally); neither path performs any network request or browser launch. -/
structure FactoryRun where
  outcome : Except ThrownError GmailMCPConfig
  networkRequests : Nat
  browserLaunches : Nat
deriving DecidableEq

/-- `AuthService.fromEnvironment` (auth.service.ts lines 274-294): throws
`AuthenticationError` when client id or secret is falsy; `context7Enabled`
is `CONTEXT7_ENABLED === 'true'`. -/
def fromEnvironment (env : Env) : FactoryRun :=
  if (oauth2FromEnv env).clientId = "" ∨ (oauth2FromEnv env).clientSecret = "" then
    { outcome := .error (.authenticationError
        "Missing required environment variables: GOOGLE_CLIENT_ID and GOOGLE_CLIENT_SECRET")
      networkRequests := 0, browserLaunches := 0 }
  else
    { outcome := .ok
        { oauth2 := oauth2FromEnv env
          tokenStoragePath := env.TOKEN_STORAGE_PATH
          defaultUserId := jsOrStr env.DEFAULT_USER_ID "me"
          context7Enabled := env.CONTEXT7_ENABLED == some "true" }
      networkRequests := 0, browserLaunches := 0 }

/-- `createFromEnvironment` (index.ts lines 301-321): same validation, but
throws a plain `new Error(...)`, and `context7Enabled` defaults to true
(`CONTEXT7_ENABLED !== 'false'`). -/
def createFromEnvironment (env : Env) : FactoryRun :=
  if (oauth2FromEnv env).clientId = "" ∨ (oauth2FromEnv env).clientSecret = "" then
    { outcome := .error (.genericError
        "Missing required environment variables: GOOGLE_CLIENT_ID and GOOGLE_CLIENT_SECRET")
      networkRequests := 0, browserLaunches := 0 }
  else
    { outcome := .ok
        { oauth2 := oauth2FromEnv env
          tokenStoragePath := env.TOKEN_STORAGE_PATH
          defaultUserId := jsOrStr env.DEFAULT_USER_ID "me"
          context7Enabled := !(env.CONTEXT7_ENABLED == some "false") }
      networkRequests := 0, browserLaunches := 0 }

/-! ### Helper lemmas -/

theorem mget_nil {α : Type} (k : String) : mget ([] : List (String × α)) k = none := rfl

theorem mget_cons_self {α : Type} (k : String) (v : α) (m : List (String × α)) :
    mget ((k, v) :: m) k = some v := by
  unfold mget
  rw [List.find?_cons_of_pos _ (by simp)]

theorem mget_mdel_self {α : Type} (m : List (String × α)) (k : String) :
    mget (mdel m k) k = none := by
  induction m with
  | nil => rfl
  | cons x xs ih =>
    by_cases hx : x.1 == k
    · simpa [mdel, List.filter_cons, hx] using ih
    · unfold mget at ih ⊢
      simp only [mdel, List.filter_cons] at ih ⊢
      simp only [hx, Bool.not_false, if_pos]
      rw [List.find?_cons_of_neg _ (by simpa using hx)]
      exact ih

theorem mget_mdel_ne {α : Type} (m : List (String × α)) (k j : String)
    (h : j ≠ k) : mget (mdel m k) j = mget m j := by
  induction m with
  | nil => rfl
  | cons x xs ih =>
    by_cases hx : x.1 == k
    · have hxj : (x.1 == j) = false := by
        have : x.1 = k := by simpa using hx
        simp [this, (Ne.symm h)]
      unfold mget at ih ⊢
      simp only [mdel, List.filter_cons, hx, Bool.not_true, if_neg] at ih ⊢
      rw [List.find?_cons_of_neg _ (by simp [hxj])]
      exact ih
    · unfold mget at ih ⊢
      simp only [mdel, List.filter_cons, hx, Bool.not_false, if_pos] at ih ⊢
      by_cases hxj : x.1 == j
      · rw [List.find?_cons_of_pos _ (by simpa using hxj),
           List.find?_cons_of_pos _ (by simpa using hxj)]
      · rw [List.find?_cons_of_neg _ (by simpa using hxj),
           List.find?_cons_of_neg _ (by simpa using hxj)]
        exact ih

theorem mset_nil {α : Type} (k : String) (v : α) :
    mset ([] : List (String × α)) k v = [(k, v)] := rfl

theorem isPrefixOf_self (l : List Char) : l.isPrefixOf l = true := by
  induction l with
  | nil => rfl
  | cons x xs ih => simp [List.isPrefixOf, ih]

theorem listContainsSub_append_self (pat xs : List Char) :
    listContainsSub pat (xs ++ pat) = true := by
  induction xs with
  | nil =>
    cases pat with
    | nil => rfl
    | cons c t => simp [listContainsSub, isPrefixOf_self]
  | cons x xs ih => simp [listContainsSub, ih]

theorem strContainsSub_append_right (a b : String) :
    strContainsSub (a ++ b) b = true := by
  unfold strContainsSub
  have hd : (a ++ b).toList = a.toList ++ b.toList := by
    cases a; cases b; rfl
  rw [hd]
  exact listContainsSub_append_self _ _

theorem destroyServer_settled (s : FlowState) :
    (destroyServer s).settled = s.settled := rfl

theorem destroyServer_serverClosed (s : FlowState) :
    (destroyServer s).serverClosed = true := rfl

theorem settle_serverClosed (s : FlowState) (r : FlowResult) :
    (settle s r).serverClosed = s.serverClosed := by
  cases hs : s.settled <;> simp [settle, hs]

theorem settle_closeTransitions (s : FlowState) (r : FlowResult) :
    (settle s r).closeTransitions = s.closeTransitions := by
  cases hs : s.settled <;> simp [settle, hs]

theorem settle_timerCancelled (s : FlowState) (r : FlowResult) :
    (settle s r).timerCancelled = s.timerCancelled := by
  cases hs : s.settled <;> simp [settle, hs]

theorem settle_timerFired (s : FlowState) (r : FlowResult) :
    (settle s r).timerFired = s.timerFired := by
  cases hs : s.settled <;> simp [settle, hs]

theorem settle_settled_of_none {s : FlowState} (h : s.settled = none)
    (r : FlowResult) : (settle s r).settled = some r := by
  simp [settle, h]

theorem settle_settled_of_some {s : FlowState} {r0 : FlowResult}
    (h : s.settled = some r0) (r : FlowResult) :
    (settle s r).settled = some r0 := by
  simp [settle, h]

/-- The run invariant: the number of listening-to-closed transitions is
one exactly when the server is closed, and the watchdog is never
cancelled (the source has no `clearTimeout`). -/
def flowInv (s : FlowState) : Prop :=
  s.closeTransitions = (if s.serverClosed then 1 else 0) ∧
  s.timerCancelled = false

theorem flowInv_init : flowInv initFlowState := by
  constructor <;> rfl

theorem flowInv_destroyServer {s : FlowState} (h : flowInv s) :
    flowInv (destroyServer s) := by
  obtain ⟨h1, h2⟩ := h
  constructor
  · cases hc : s.serverClosed <;>
      simp [destroyServer, hc] <;> simp [hc] at h1 <;> omega
  · simpa [destroyServer] using h2

theorem flowInv_settle (r : FlowResult) {s : FlowState} (h : flowInv s) :
    flowInv (settle s r) := by
  obtain ⟨h1, h2⟩ := h
  constructor
  · rw [settle_closeTransitions, settle_serverClosed]; exact h1
  · rw [settle_timerCancelled]; exact h2

theorem flowInv_handleRequest (exchange : String → Except String Unit)
    (url : String) {s : FlowState} (h : flowInv s) :
    flowInv (handleRequest exchange s url) := by
  unfold handleRequest
  split
  · split
    · exact flowInv_settle _ (flowInv_destroyServer h)
    · split
      · exact flowInv_settle _ (flowInv_destroyServer h)
      · split
        · exact flowInv_settle _ (flowInv_destroyServer h)
        · exact flowInv_settle _ (flowInv_destroyServer (flowInv_destroyServer h))
  · exact h

theorem flowInv_foldl (exchange : String → Except String Unit)
    (reqs : List String) {s : FlowState} (h : flowInv s) :
    flowInv (reqs.foldl (handleRequest exchange) s) := by
  induction reqs generalizing s with
  | nil => exact h
  | cons r rs ih => exact ih (flowInv_handleRequest exchange r h)

theorem handleTimeout_of_not_cancelled {s : FlowState}
    (h : s.timerCancelled = false) :
    handleTimeout s =
      settle (destroyServer { s with timerFired := true })
        (.rejected timeoutMsg) := by
  unfold handleTimeout
  rw [h]
  simp

/-- C1: for every invocation of the interactive OAuth2 flow — any sequence
of HTTP requests delivered to the callback listener, any outcome of the
code exchange, hence any exit path (code received, error parameter, no
code, exchange failure, or timeout) — the listener goes from listening to
closed exactly once, i.e. its port is released exactly once, never zero
times and never twice. (`server.destroy()` may be invoked a second time
by the never-cleared watchdog, but on an already-closed server it releases
nothing.) -/
theorem C1_listener_port_released_exactly_once
    (exchange : String → Except String Unit) (reqs : List String) :
    (runFlow exchange reqs).closeTransitions = 1 ∧
    (runFlow exchange reqs).serverClosed = true := by
  unfold runFlow
  have h := flowInv_foldl exchange reqs flowInv_init
  rw [handleTimeout_of_not_cancelled h.2]
  have hf : flowInv
      { (reqs.foldl (handleRequest exchange) initFlowState) with
        timerFired := true } := ⟨h.1, h.2⟩
  have hinv := flowInv_settle (FlowResult.rejected timeoutMsg)
    (flowInv_destroyServer hf)
  have hc : (settle (destroyServer
      { (reqs.foldl (handleRequest exchange) initFlowState) with
        timerFired := true }) (FlowResult.rejected timeoutMsg)).serverClosed
      = true := by
    rw [settle_serverClosed, destroyServer_serverClosed]
  refine ⟨?_, hc⟩
  rw [hinv.1, hc]
  rfl

/-- C2 counterexample: in the run where the callback delivers a valid
authorization code and the exchange succeeds (the flow resolves
successfully), the watchdog is still not cancelled — the source never
calls `clearTimeout` — so it fires after 5 minutes and destroys the
server a second time. This refutes "the watchdog timer is cancelled on
every resolution path of the flow". -/
theorem C2_counterexample_timer_fires_after_resolution :
    ((["/oauth2callback?code=abc"].foldl
        (handleRequest (fun _ => Except.ok ())) initFlowState).settled =
      some FlowResult.resolved) ∧
    (runFlow (fun _ => Except.ok ()) ["/oauth2callback?code=abc"]).timerCancelled
      = false ∧
    (runFlow (fun _ => Except.ok ()) ["/oauth2callback?code=abc"]).timerFired
      = true ∧
    (runFlow (fun _ => Except.ok ()) ["/oauth2callback?code=abc"]).destroyCalls
      = 2 := by
  decide

/-- C2 (amended): the watchdog timer is never cancelled — there is no
`clearTimeout` in the source — so it fires in every run, destroying the
(typically already destroyed) listener again; because a promise settles at
most once, its rejection takes effect only when no qualifying callback
resolved the flow first, in which case the flow fails with the timeout
error and the listener is closed. -/
theorem C2_amended_watchdog_never_cancelled
    (exchange : String → Except String Unit) (reqs : List String) :
    (runFlow exchange reqs).timerFired = true ∧
    (runFlow exchange reqs).timerCancelled = false ∧
    ((reqs.foldl (handleRequest exchange) initFlowState).settled = none →
      (runFlow exchange reqs).settled = some (.rejected timeoutMsg) ∧
      (runFlow exchange reqs).serverClosed = true) ∧
    (∀ r : FlowResult,
      (reqs.foldl (handleRequest exchange) initFlowState).settled = some r →
      (runFlow exchange reqs).settled = some r) := by
  unfold runFlow
  have h := flowInv_foldl exchange reqs flowInv_init
  rw [handleTimeout_of_not_cancelled h.2]
  refine ⟨?_, ?_, ?_, ?_⟩
  · rw [settle_timerFired]; rfl
  · rw [settle_timerCancelled]; exact h.2
  · intro hn
    constructor
    · rw [settle_settled_of_none (by rw [destroyServer_settled]; exact hn)]
    · rw [settle_serverClosed, destroyServer_serverClosed]
  · intro r hr
    rw [settle_settled_of_some (by rw [destroyServer_settled]; exact hr)]

/-- Witness for C2 (amended): the empty run (no callback arrives) times
out with the timeout error, with the watchdog having fired. -/
theorem C2_amended_watchdog_never_cancelled_witness :
    (runFlow (fun _ => Except.ok ()) []).settled =
      some (.rejected timeoutMsg) ∧
    (runFlow (fun _ => Except.ok ()) []).timerFired = true :=
  ⟨((C2_amended_watchdog_never_cancelled (fun _ => Except.ok ()) []).2.2.1
      rfl).1,
   (C2_amended_watchdog_never_cancelled (fun _ => Except.ok ()) []).1⟩

/-- C8: while the flow is pending, a request whose URL matches the
callback test and carries a truthy `error` query parameter rejects the
flow with a message `OAuth2 error: ...` that contains that error string; a
matching request with neither a truthy `code` nor a truthy `error` rejects
it with the `No authorization code received` failure; and a request whose
URL does not match the callback test leaves the state — in particular the
pending flow — completely unchanged. (The source's path test is a
substring check of `/oauth2callback` against the whole request URL.) -/
theorem C8_callback_request_dispatch
    (exchange : String → Except String Unit) (s : FlowState) (url : String)
    (hpending : s.settled = none) :
    (strContainsSub url "/oauth2callback" = false →
      handleRequest exchange s url = s) ∧
    (∀ e : String, strContainsSub url "/oauth2callback" = true →
      getQueryParam url "error" = some e → e ≠ "" →
      (handleRequest exchange s url).settled =
        some (.rejected ("OAuth2 error: " ++ e)) ∧
      strContainsSub ("OAuth2 error: " ++ e) e = true) ∧
    (strContainsSub url "/oauth2callback" = true →
      jsTruthyStr (getQueryParam url "error") = false →
      jsTruthyStr (getQueryParam url "code") = false →
      (handleRequest exchange s url).settled =
        some (.rejected "No authorization code received")) := by
  refine ⟨?_, ?_, ?_⟩
  · intro hc
    unfold handleRequest
    rw [hc]
    simp
  · intro e hc he hne
    have ht : jsTruthyStr (some e) = true := by
      unfold jsTruthyStr
      simpa using hne
    constructor
    · unfold handleRequest
      rw [hc, if_pos rfl, he, ht, if_pos rfl,
        settle_settled_of_none (by rw [destroyServer_settled]; exact hpending)]
      rfl
    · exact strContainsSub_append_right "OAuth2 error: " e
  · intro hc herr hcode
    unfold handleRequest
    rw [hc, if_pos rfl, herr, hcode, if_neg (by simp),
      if_pos (show (!false) = true from rfl),
      settle_settled_of_none (by rw [destroyServer_settled]; exact hpending)]

/-- Witness for C8: a callback request carrying `error=access_denied`
rejects the pending flow with a message containing `access_denied`. -/
theorem C8_callback_request_dispatch_witness :
    (handleRequest (fun _ => Except.ok ()) initFlowState
        "/oauth2callback?error=access_denied").settled =
      some (.rejected "OAuth2 error: access_denied") :=
  ((C8_callback_request_dispatch (fun _ => Except.ok ()) initFlowState
      "/oauth2callback?error=access_denied" rfl).2.1 "access_denied"
      (by decide) (by decide) (by decide)).1

theorem getCachedResponse_miss {s : Context7State} {k : String} (now : Int)
    (h : mget s.cache k = none) : getCachedResponse s k now = (none, s) := by
  unfold getCachedResponse
  rw [h]

theorem getCachedResponse_hit {s : Context7State} {k : String}
    {c : Context7Response} {e : Int} (now : Int)
    (hc : mget s.cache k = some c) (he : mget s.cacheExpiry k = some e)
    (hcond : e ≠ 0 ∧ now < e) : getCachedResponse s k now = (some c, s) := by
  unfold getCachedResponse
  rw [hc, he]
  show (if e ≠ 0 ∧ now < e then ((some c, s) : Option Context7Response × Context7State)
    else (none, { s with cache := mdel s.cache k,
                         cacheExpiry := mdel s.cacheExpiry k })) = (some c, s)
  exact if_pos hcond

theorem getCachedResponse_stale {s : Context7State} {k : String}
    {c : Context7Response} {e : Int} (now : Int)
    (hc : mget s.cache k = some c) (he : mget s.cacheExpiry k = some e)
    (hcond : ¬(e ≠ 0 ∧ now < e)) :
    getCachedResponse s k now =
      (none, { s with cache := mdel s.cache k,
                      cacheExpiry := mdel s.cacheExpiry k }) := by
  unfold getCachedResponse
  rw [hc, he]
  show (if e ≠ 0 ∧ now < e then ((some c, s) : Option Context7Response × Context7State)
    else (none, { s with cache := mdel s.cache k,
                         cacheExpiry := mdel s.cacheExpiry k })) =
    (none, { s with cache := mdel s.cache k, cacheExpiry := mdel s.cacheExpiry k })
  exact if_neg hcond

theorem getCachedResponse_drift {s : Context7State} {k : String}
    {c : Context7Response} (now : Int)
    (hc : mget s.cache k = some c) (he : mget s.cacheExpiry k = none) :
    getCachedResponse s k now =
      (none, { s with cache := mdel s.cache k,
                      cacheExpiry := mdel s.cacheExpiry k }) := by
  unfold getCachedResponse
  rw [hc, he]

theorem getRelevantDocumentation_fresh (op : String) (ctx : Option String)
    (t : Int) (doc : Context7Response) :
    getRelevantDocumentation (context7Init true) op ctx t (.ok doc) =
      { result := some doc,
        state := { enabled := true, cache := [(cacheKey op ctx, doc)],
                   cacheExpiry := [(cacheKey op ctx, t + CACHE_DURATION)] },
        fetchInvoked := true } := rfl

/-- C5: starting from a freshly constructed, enabled service, for every
(operation, context) key: a first `getRelevantDocumentation` call at `t1`
whose fetch succeeds invokes the fetch; a second call made strictly within
the 30-minute cache duration does not invoke the fetch and returns the
cached documentation (so the two calls invoke the fetch exactly once in
total); and a third call made once the duration has elapsed
(`t1 + CACHE_DURATION ≤ t3`) invokes the fetch a second time. -/
theorem C5_cache_thirty_minute_window (op : String) (ctx : Option String)
    (doc1 doc3 : Context7Response) (f2 : Except String Context7Response)
    (t1 t2 t3 : Int) (h1 : 0 ≤ t1) (h2 : t2 < t1 + CACHE_DURATION)
    (h3 : t1 + CACHE_DURATION ≤ t3) :
    (getRelevantDocumentation (context7Init true) op ctx t1
        (.ok doc1)).fetchInvoked = true ∧
    (getRelevantDocumentation (context7Init true) op ctx t1
        (.ok doc1)).result = some doc1 ∧
    (getRelevantDocumentation
        (getRelevantDocumentation (context7Init true) op ctx t1
          (.ok doc1)).state op ctx t2 f2).fetchInvoked = false ∧
    (getRelevantDocumentation
        (getRelevantDocumentation (context7Init true) op ctx t1
          (.ok doc1)).state op ctx t2 f2).result = some doc1 ∧
    (getRelevantDocumentation
        (getRelevantDocumentation
          (getRelevantDocumentation (context7Init true) op ctx t1
            (.ok doc1)).state op ctx t2 f2).state op ctx t3
        (.ok doc3)).fetchInvoked = true := by
  have hDUR : CACHE_DURATION = 1800000 := by norm_num [CACHE_DURATION]
  have hc : mget [(cacheKey op ctx, doc1)] (cacheKey op ctx) = some doc1 :=
    mget_cons_self _ _ _
  have he : mget [(cacheKey op ctx, t1 + CACHE_DURATION)] (cacheKey op ctx) =
      some (t1 + CACHE_DURATION) := mget_cons_self _ _ _
  have e2 : getRelevantDocumentation
      ⟨true, [(cacheKey op ctx, doc1)],
        [(cacheKey op ctx, t1 + CACHE_DURATION)]⟩ op ctx t2 f2 =
      ⟨some doc1,
        ⟨true, [(cacheKey op ctx, doc1)],
          [(cacheKey op ctx, t1 + CACHE_DURATION)]⟩, false⟩ := by
    unfold getRelevantDocumentation
    rw [if_neg (by simp), getCachedResponse_hit t2 hc he ⟨by omega, h2⟩]
  have e3 : (getRelevantDocumentation
      ⟨true, [(cacheKey op ctx, doc1)],
        [(cacheKey op ctx, t1 + CACHE_DURATION)]⟩ op ctx t3
      (.ok doc3)).fetchInvoked = true := by
    unfold getRelevantDocumentation
    rw [if_neg (by simp),
      getCachedResponse_stale t3 hc he (fun hx => absurd hx.2 (by omega))]
  have s1e : (getRelevantDocumentation (context7Init true) op ctx t1
      (.ok doc1)).state =
      ⟨true, [(cacheKey op ctx, doc1)],
        [(cacheKey op ctx, t1 + CACHE_DURATION)]⟩ :=
    congrArg DocCallResult.state (getRelevantDocumentation_fresh op ctx t1 doc1)
  refine ⟨rfl, rfl, ?_, ?_, ?_⟩
  · rw [s1e]
    exact congrArg DocCallResult.fetchInvoked e2
  · rw [s1e]
    exact congrArg DocCallResult.result e2
  · rw [s1e, congrArg DocCallResult.state e2]
    exact e3

/-- Witness for C5 at operation `getMessage` with no context: the second
call 1ms later hits the cache without fetching; the third call at the
30-minute boundary fetches again. -/
theorem C5_cache_thirty_minute_window_witness :
    (getRelevantDocumentation
        (getRelevantDocumentation (context7Init true) "getMessage" none 0
          (.ok ⟨"a", [], []⟩)).state "getMessage" none 1
        (.error "x")).fetchInvoked = false ∧
    (getRelevantDocumentation
        (getRelevantDocumentation
          (getRelevantDocumentation (context7Init true) "getMessage" none 0
            (.ok ⟨"a", [], []⟩)).state "getMessage" none 1
          (.error "x")).state "getMessage" none 1800000
        (.ok ⟨"b", [], []⟩)).fetchInvoked = true :=
  ⟨(C5_cache_thirty_minute_window "getMessage" none ⟨"a", [], []⟩ ⟨"b", [], []⟩
      (.error "x") 0 1 1800000 (by norm_num)
      (by norm_num [CACHE_DURATION]) (by norm_num [CACHE_DURATION])).2.2.1,
   (C5_cache_thirty_minute_window "getMessage" none ⟨"a", [], []⟩ ⟨"b", [], []⟩
      (.error "x") 0 1 1800000 (by norm_num)
      (by norm_num [CACHE_DURATION]) (by norm_num [CACHE_DURATION])).2.2.2.2⟩

/-- C6: once the service is disabled via `setEnabled false`, every
`getRelevantDocumentation` call — from any prior state, so in particular
one holding a previously cached, unexpired entry for the key — returns
`null` without invoking the fetch and without touching the state. -/
theorem C6_disabled_short_circuits (s : Context7State) (op : String)
    (ctx : Option String) (now : Int)
    (fetch : Except String Context7Response) :
    getRelevantDocumentation (setEnabled s false) op ctx now fetch =
      { result := none, state := setEnabled s false,
        fetchInvoked := false } := rfl

/-- C7 counterexample: with an expired entry stored under the key
(`a-default`, expiry 5, looked up at time 100), a call whose fetch fails
returns `null` and does not propagate the failure — but the cache state is
NOT unchanged: the lazy lookup evicted the stale entry before the fetch
ran, so the state after the call differs from the state before it. This
refutes "the cache state is unchanged". -/
theorem C7_counterexample_eviction_changes_cache :
    (getRelevantDocumentation
        ⟨true, [("a-default", ⟨"old", [], []⟩)], [("a-default", 5)]⟩
        "a" none 100 (.error "boom")).result = none ∧
    (getRelevantDocumentation
        ⟨true, [("a-default", ⟨"old", [], []⟩)], [("a-default", 5)]⟩
        "a" none 100 (.error "boom")).fetchInvoked = true ∧
    (getRelevantDocumentation
        ⟨true, [("a-default", ⟨"old", [], []⟩)], [("a-default", 5)]⟩
        "a" none 100 (.error "boom")).state ≠
      (⟨true, [("a-default", ⟨"old", [], []⟩)], [("a-default", 5)]⟩ :
        Context7State) := by
  decide

/-- C7 (amended): for every `getRelevantDocumentation` call that actually
invokes the fetch and whose fetch fails, the call returns `null` (the
failure is absorbed, not propagated — the model's return type carries no
error), nothing remains stored under the call's key afterwards (a stale
expired entry found during the lookup is evicted), and entries under every
other key are untouched. -/
theorem C7_amended_failed_fetch_absorbed (s : Context7State) (op : String)
    (ctx : Option String) (now : Int) (emsg : String)
    (hinvoked : (getRelevantDocumentation s op ctx now
      (.error emsg)).fetchInvoked = true) :
    (getRelevantDocumentation s op ctx now (.error emsg)).result = none ∧
    mget (getRelevantDocumentation s op ctx now
      (.error emsg)).state.cache (cacheKey op ctx) = none ∧
    (∀ k : String, k ≠ cacheKey op ctx →
      mget (getRelevantDocumentation s op ctx now
        (.error emsg)).state.cache k = mget s.cache k ∧
      mget (getRelevantDocumentation s op ctx now
        (.error emsg)).state.cacheExpiry k = mget s.cacheExpiry k) := by
  by_cases hen : s.enabled
  · unfold getRelevantDocumentation at hinvoked ⊢
    rw [hen] at hinvoked ⊢
    rw [if_neg (by simp)] at hinvoked ⊢
    cases hmc : mget s.cache (cacheKey op ctx) with
    | none =>
      rw [getCachedResponse_miss now hmc] at hinvoked ⊢
      exact ⟨rfl, hmc, fun k _ => ⟨rfl, rfl⟩⟩
    | some c =>
      cases hme : mget s.cacheExpiry (cacheKey op ctx) with
      | none =>
        rw [getCachedResponse_drift now hmc hme] at hinvoked ⊢
        refine ⟨rfl, mget_mdel_self _ _, fun k hk => ⟨?_, ?_⟩⟩
        · exact mget_mdel_ne _ _ _ hk
        · exact mget_mdel_ne _ _ _ hk
      | some e2 =>
        by_cases hcond : e2 ≠ 0 ∧ now < e2
        · rw [getCachedResponse_hit now hmc hme hcond] at hinvoked
          simp at hinvoked
        · rw [getCachedResponse_stale now hmc hme hcond] at hinvoked ⊢
          refine ⟨rfl, mget_mdel_self _ _, fun k hk => ⟨?_, ?_⟩⟩
          · exact mget_mdel_ne _ _ _ hk
          · exact mget_mdel_ne _ _ _ hk
  · unfold getRelevantDocumentation at hinvoked
    rw [if_pos (by simp [Bool.not_eq_true] at hen ⊢; exact hen)] at hinvoked
    simp at hinvoked

/-- Witness for C7 (amended) at the expired-entry state of the
counterexample: the failed call returns `null` and leaves nothing stored
under the key. -/
theorem C7_amended_failed_fetch_absorbed_witness :
    (getRelevantDocumentation
        ⟨true, [("a-default", ⟨"old", [], []⟩)], [("a-default", 5)]⟩
        "a" none 100 (.error "boom")).result = none ∧
    mget (getRelevantDocumentation
        ⟨true, [("a-default", ⟨"old", [], []⟩)], [("a-default", 5)]⟩
        "a" none 100 (.error "boom")).state.cache (cacheKey "a" none) =
      none :=
  ⟨(C7_amended_failed_fetch_absorbed
      ⟨true, [("a-default", ⟨"old", [], []⟩)], [("a-default", 5)]⟩
      "a" none 100 "boom" (by decide)).1,
   (C7_amended_failed_fetch_absorbed
      ⟨true, [("a-default", ⟨"old", [], []⟩)], [("a-default", 5)]⟩
      "a" none 100 "boom" (by decide)).2.1⟩

/-- C10 counterexample: the claim's example pair does not collide — the
key for operation `a` with context `b` is `a-b`, while the key for
operation `a-b` with context `default` is `a-b-default`. -/
theorem C10_counterexample_example_pair_differs :
    cacheKey "a" (some "b") ≠ cacheKey "a-b" (some "default") := by
  decide

/-- C10 (amended): the key construction is indeed not injective — e.g.
operation `a` with context `b-c` and the distinct pair operation `a-b`
with context `c` both build the key `a-b-c` — so after the first pair's
documentation is fetched and cached, a call for the second pair within the
cache window returns that cached documentation without fetching. -/
theorem C10_amended_key_collision_crosstalk :
    cacheKey "a" (some "b-c") = cacheKey "a-b" (some "c") ∧
    (("a", some "b-c") ≠ (("a-b" : String), some ("c" : String))) ∧
    (getRelevantDocumentation (context7Init true) "a" (some "b-c") 0
      (.ok ⟨"docs", [], []⟩)).fetchInvoked = true ∧
    (getRelevantDocumentation
        (getRelevantDocumentation (context7Init true) "a" (some "b-c") 0
          (.ok ⟨"docs", [], []⟩)).state "a-b" (some "c") 1000
        (.error "down")).fetchInvoked = false ∧
    (getRelevantDocumentation
        (getRelevantDocumentation (context7Init true) "a" (some "b-c") 0
          (.ok ⟨"docs", [], []⟩)).state "a-b" (some "c") 1000
        (.error "down")).result = some ⟨"docs", [], []⟩ := by
  decide

/-- C3 counterexample: a stored credential whose expiry is exactly
5 minutes (300000 ms) after now — the inclusive boundary the claim
says still qualifies — triggers no refresh at all, because the source
guard is the strict `expiryDate - Date.now() < 5 * 60 * 1000`. -/
theorem C3_counterexample_boundary_not_refreshed :
    (300000 : Int) - 0 = FIVE_MINUTES_MS ∧
    authenticateRefreshCount true true true (some 300000) 0 = 0 := by
  decide

theorem refreshNeeded_true {e now : Int} (h0 : e ≠ 0)
    (h : e - now < FIVE_MINUTES_MS) : refreshNeeded (some e) now = true := by
  unfold refreshNeeded
  show (decide (e ≠ 0) && decide (e - now < FIVE_MINUTES_MS)) = true
  rw [decide_eq_true h0, decide_eq_true h]
  rfl

theorem refreshNeeded_false_of_ge {e now : Int}
    (h : FIVE_MINUTES_MS ≤ e - now) : refreshNeeded (some e) now = false := by
  unfold refreshNeeded
  show (decide (e ≠ 0) && decide (e - now < FIVE_MINUTES_MS)) = false
  rw [decide_eq_false (not_lt.mpr h)]
  simp

/-- C3 (amended): on the normal path (stored tokens load and the
introspection call succeeds), a stored credential with a truthy (nonzero)
expiry strictly within 5 minutes of now triggers exactly one refresh
before `authenticate()` returns, whether or not the refresh succeeds; at
an expiry of exactly 5 minutes or more, no refresh is triggered. -/
theorem C3_amended_refresh_strictly_within_window (e now : Int)
    (refreshOk : Bool) (h0 : e ≠ 0) :
    (e - now < FIVE_MINUTES_MS →
      authenticateRefreshCount true true refreshOk (some e) now = 1) ∧
    (FIVE_MINUTES_MS ≤ e - now →
      authenticateRefreshCount true true refreshOk (some e) now = 0) := by
  constructor
  · intro h
    unfold authenticateRefreshCount isTokenValid
    rw [refreshNeeded_true h0 h]
    rfl
  · intro h
    unfold authenticateRefreshCount isTokenValid
    rw [refreshNeeded_false_of_ge h]
    rfl

/-- Witness for C3 (amended): expiry 1 ms, now 0 — strictly within the
window — triggers exactly one refresh. -/
theorem C3_amended_refresh_strictly_within_window_witness :
    authenticateRefreshCount true true true (some 1) 0 = 1 :=
  (C3_amended_refresh_strictly_within_window 1 0 true (by decide)).1
    (by decide)

/-- C9: in every state of the auth service whose in-memory credentials
lack a truthy `access_token` (absent or empty), `getAuthenticatedClient`
throws an `AuthenticationError` instead of returning a client handle. -/
theorem C9_no_access_token_never_authorizes (c : Credentials)
    (h : jsTruthyStr c.access_token = false) :
    getAuthenticatedClient c =
      .error (.authenticationError
        "No valid authentication. Please run authenticate() first.") := by
  unfold getAuthenticatedClient
  rw [h]
  rfl

/-- Witness for C9: credentials with no `access_token` field at all. -/
theorem C9_no_access_token_never_authorizes_witness :
    getAuthenticatedClient ⟨none⟩ =
      .error (.authenticationError
        "No valid authentication. Please run authenticate() first.") :=
  C9_no_access_token_never_authorizes ⟨none⟩ rfl

/-- C4 counterexample: with the client secret missing, the manager-level
factory `createFromEnvironment` does throw before any network or browser
action — but it throws a plain `Error`, not an `AuthenticationError`.
This refutes "fails with an AuthenticationError" for one of the two
factories the claim covers. -/
theorem C4_counterexample_plain_error_not_authentication_error :
    isThrown (createFromEnvironment
      ⟨some "id", none, none, none, none, none, none⟩).outcome = true ∧
    isAuthenticationError (createFromEnvironment
      ⟨some "id", none, none, none, none, none, none⟩).outcome = false ∧
    (createFromEnvironment
      ⟨some "id", none, none, none, none, none, none⟩).networkRequests = 0 ∧
    (createFromEnvironment
      ⟨some "id", none, none, none, none, none, none⟩).browserLaunches = 0 := by
  decide

/-- C4 (amended): for every environment in which the client id or the
client secret is falsy (missing or empty), both factories fail before any
network request or browser launch — `AuthService.fromEnvironment` with an
`AuthenticationError`, and `createFromEnvironment` with a plain `Error`
(not an `AuthenticationError`). -/
theorem C4_amended_fail_fast_error_kinds (env : Env)
    (h : (oauth2FromEnv env).clientId = "" ∨
      (oauth2FromEnv env).clientSecret = "") :
    (fromEnvironment env).outcome =
      .error (.authenticationError
        "Missing required environment variables: GOOGLE_CLIENT_ID and GOOGLE_CLIENT_SECRET") ∧
    (fromEnvironment env).networkRequests = 0 ∧
    (fromEnvironment env).browserLaunches = 0 ∧
    (createFromEnvironment env).outcome =
      .error (.genericError
        "Missing required environment variables: GOOGLE_CLIENT_ID and GOOGLE_CLIENT_SECRET") ∧
    isAuthenticationError (createFromEnvironment env).outcome = false ∧
    (createFromEnvironment env).networkRequests = 0 ∧
    (createFromEnvironment env).browserLaunches = 0 := by
  unfold fromEnvironment createFromEnvironment
  rw [if_pos h, if_pos h]
  exact ⟨rfl, rfl, rfl, rfl, rfl, rfl, rfl⟩

/-- Witness for C4 (amended): the empty environment. -/
theorem C4_amended_fail_fast_error_kinds_witness :
    (fromEnvironment ⟨none, none, none, none, none, none, none⟩).outcome =
      .error (.authenticationError
        "Missing required environment variables: GOOGLE_CLIENT_ID and GOOGLE_CLIENT_SECRET") ∧
    (createFromEnvironment ⟨none, none, none, none, none, none, none⟩).outcome =
      .error (.genericError
        "Missing required environment variables: GOOGLE_CLIENT_ID and GOOGLE_CLIENT_SECRET") :=
  ⟨(C4_amended_fail_fast_error_kinds
      ⟨none, none, none, none, none, none, none⟩ (Or.inl rfl)).1,
   (C4_amended_fail_fast_error_kinds
      ⟨none, none, none, none, none, none, none⟩ (Or.inl rfl)).2.2.2.1⟩

end GmailMCP
